import Mathlib

/-!
Verification of the soil decision pipeline (`soil.py`).

The embedding models the core decision pipeline: the crop registry
(`VALID_CROPS`, `CROP_PROFILES`), profile resolution (`get_crop_profile`),
crop validation (`is_valid_crop`, `suggest_crops`), the deterministic
rule engine (`rule_engine`) and the arbiter (`analyze_soil`).

Modelling decisions:
* Python floats are modelled as rationals (`ℚ`); every comparison the code
  performs is order-exact at these values.
* Timestamps (`SoilReading.timestamp` is carried but never read by the
  pipeline; `AIDecision.timestamp` is set to the wall clock at construction)
  are excluded from `AIDecision`, matching the "excluding timestamp"
  comparisons throughout; `SoilReading.timestamp` is kept as a field to show
  the pipeline never looks at it.
* The network result of `call_gemini` and the stdlib JSON decoding
  (`json.loads` + `AIDecision(**data)`) are external collaborators; they are
  passed to `analyze_soil` as explicit parameters `remote` and `parse`.
* Python f-string number rendering is modelled with `toString` on `ℚ`;
  no claim depends on the rendering of a number.
* `crops.json` is absent from the repository, so the registry is exactly
  the built-in `VALID_CROPS` set and the three built-in profiles.
-/

/-- Python `str.lower()` (ASCII case-folding, as `Char.toLower`). -/
def strLower (s : String) : String := ⟨s.data.map Char.toLower⟩

/-- Whitespace-trim on a character list (both ends), for `str.strip()`. -/
def trimList (l : List Char) : List Char :=
  ((l.dropWhile Char.isWhitespace).reverse.dropWhile Char.isWhitespace).reverse

/-- Python `str.strip()`. -/
def strTrim (s : String) : String := ⟨trimList s.data⟩

/-- The normalization `name.strip().lower()` used throughout `soil.py`. -/
def normalizeName (s : String) : String := strLower (strTrim s)

/-- Python `str.startswith(pre)`. -/
def strStartsWith (s pre : String) : Bool := pre.data.isPrefixOf s.data

/-- `VALID_CROPS` from `soil.py` lines 18-24, in source order (a Python set;
only membership is observable). -/
def VALID_CROPS : List String :=
  ["rice", "wheat", "maize", "corn", "sugarcane", "cotton", "soybean",
   "potato", "tomato", "banana", "millet", "barley", "groundnut",
   "pea", "lentil", "mustard", "sunflower", "chili", "onion",
   "cauliflower", "brinjal", "grapes", "apple", "orange", "mango",
   "tea", "coffee"]

/-- The value of Python `sorted(VALID_CROPS)` (line 113); lemmas below prove
it is a permutation of `VALID_CROPS` in strictly ascending lexicographic
order. -/
def sortedValidCrops : List String :=
  ["apple", "banana", "barley", "brinjal", "cauliflower", "chili", "coffee",
   "corn", "cotton", "grapes", "groundnut", "lentil", "maize", "mango",
   "millet", "mustard", "onion", "orange", "pea", "potato", "rice",
   "soybean", "sugarcane", "sunflower", "tea", "tomato", "wheat"]

/-- A crop profile: the fields of the profile dicts in `CROP_PROFILES`
(lines 43-63).  Each field is optional, mirroring the `.get` chains with
defaults in `rule_engine`. -/
structure CropProfile where
  moisture_min : Option ℚ
  nitrogen_min : Option ℚ
  nitrogen_rec : Option String
  potassium_min : Option ℚ
  potassium_rec : Option String
  ph_min : Option ℚ
  ph_max : Option ℚ
deriving DecidableEq, Repr

/-- `CROP_PROFILES["corn"]` (lines 44-49). -/
def cornProfile : CropProfile :=
  { moisture_min := some 40
    nitrogen_min := some 300
    nitrogen_rec := some "Apply 60kg urea per acre"
    potassium_min := some 160
    potassium_rec := some "Apply 40kg potash per acre"
    ph_min := some 6
    ph_max := some 7.5 }

/-- `CROP_PROFILES["sugarcane"]` (lines 50-55). -/
def sugarcaneProfile : CropProfile :=
  { moisture_min := some 45
    nitrogen_min := some 350
    nitrogen_rec := some "Apply 80kg urea per acre"
    potassium_min := some 220
    potassium_rec := some "Apply 60kg potash per acre"
    ph_min := some 6
    ph_max := some 8 }

/-- `CROP_PROFILES["_default"]` (lines 57-62). -/
def defaultProfile : CropProfile :=
  { moisture_min := some 35
    nitrogen_min := some 250
    nitrogen_rec := some "Apply 50kg urea per acre"
    potassium_min := some 150
    potassium_rec := some "Apply 30kg potash per acre"
    ph_min := some 6
    ph_max := some 8 }

/-- `CROP_PROFILES` (lines 43-63), as an association list. -/
def CROP_PROFILES : List (String × CropProfile) :=
  [("corn", cornProfile), ("sugarcane", sugarcaneProfile),
   ("_default", defaultProfile)]

/-- `get_crop_profile` (lines 98-103): falls back to `_default` for empty
input or an unknown (normalized) crop name. -/
def get_crop_profile (name : String) : CropProfile :=
  if name = "" then defaultProfile
  else (CROP_PROFILES.lookup (normalizeName name)).getD defaultProfile

/-- `is_valid_crop` (lines 105-107). -/
def is_valid_crop (name : String) : Bool :=
  if name = "" then false
  else VALID_CROPS.contains (normalizeName name)

/-- `suggest_crops` (lines 109-114); the Python default for `limit` is 20. -/
def suggest_crops (pre : String) (limit : Nat) : List String :=
  let p := strLower (strTrim pre)
  if p = "" then []
  else ((sortedValidCrops.filter (fun c => strStartsWith (strLower c) p)).take limit)

/-- `SoilReading` (lines 134-149).  `timestamp` is set at construction and
never read by the pipeline. -/
structure SoilReading where
  moisture : ℚ
  nitrogen : ℚ
  phosphorus : ℚ
  potassium : ℚ
  ph : ℚ
  temperature : ℚ
  electrical_conductivity : ℚ
  organic_carbon : ℚ
  location : String
  crop_type : String
  timestamp : Option String
deriving DecidableEq, Repr

/-- `AIDecision` (lines 151-163), minus the wall-clock `timestamp` field
(all claims compare decisions excluding the timestamp). -/
structure AIDecision where
  action : String
  priority : String
  confidence : ℚ
  reasoning : String
  recommendations : List String
  recommendations_hindi : List String
  next_check_hours : Nat
deriving DecidableEq, Repr

/-- One threshold-step contribution: what a step of `rule_engine` appends to
`rec`, `rec_hi` and `reasoning_parts` respectively. -/
structure Guidance where
  recs : List String
  recsHi : List String
  reasons : List String
deriving DecidableEq, Repr

/-- Moisture guidance step of `rule_engine` (lines 229-237). -/
def moistureGuidance (p : CropProfile) (s : SoilReading) : Guidance :=
  if s.moisture < max 20 (p.moisture_min.getD 35 - 15) then
    { recs := ["Irrigate immediately"]
      recsHi := ["तुरंत सिंचाई करें"]
      reasons := ["Moisture critically low at " ++ toString s.moisture ++ "%"] }
  else if s.moisture < p.moisture_min.getD 35 then
    { recs := ["Irrigate soon"]
      recsHi := ["जल्द सिंचाई करें"]
      reasons := ["Moisture is " ++ toString s.moisture ++ "%, below crop optimal of "
                  ++ toString (p.moisture_min.getD 35) ++ "%"] }
  else { recs := [], recsHi := [], reasons := [] }

/-- Nitrogen guidance step of `rule_engine` (lines 240-245). -/
def nitrogenGuidance (p : CropProfile) (s : SoilReading) : Guidance :=
  if s.nitrogen < p.nitrogen_min.getD 250 then
    { recs := [p.nitrogen_rec.getD "Apply 50kg urea per acre"]
      recsHi := ["यूरिया आवश्यक"]
      reasons := ["Nitrogen deficiency detected at " ++ toString s.nitrogen
                  ++ " mg/kg (target " ++ toString (p.nitrogen_min.getD 250) ++ ")"] }
  else { recs := [], recsHi := [], reasons := [] }

/-- Potassium guidance step of `rule_engine` (lines 248-253): skipped entirely
when the profile defines no potassium minimum. -/
def potassiumGuidance (p : CropProfile) (s : SoilReading) : Guidance :=
  match p.potassium_min with
  | none => { recs := [], recsHi := [], reasons := [] }
  | some kmin =>
    if s.potassium < kmin then
      { recs := [p.potassium_rec.getD "Apply potash as needed"]
        recsHi := ["पोटाश की आवश्यकता"]
        reasons := ["Potassium low at " ++ toString s.potassium
                    ++ " mg/kg (target " ++ toString kmin ++ ")"] }
    else { recs := [], recsHi := [], reasons := [] }

/-- pH step of `rule_engine` (lines 256-259): a reasoning fragment only. -/
def phReasons (p : CropProfile) (s : SoilReading) : List String :=
  if s.ph < p.ph_min.getD 6 ∨ s.ph > p.ph_max.getD 8 then
    ["Soil pH " ++ toString s.ph ++ " is outside ideal range ("
     ++ toString (p.ph_min.getD 6) ++ "-" ++ toString (p.ph_max.getD 8) ++ ")"]
  else []

/-- The `rec` list after the three guidance steps (before the healthy
fallback of line 261). -/
def baseRecs (p : CropProfile) (s : SoilReading) : List String :=
  (moistureGuidance p s).recs ++ (nitrogenGuidance p s).recs ++ (potassiumGuidance p s).recs

/-- The `rec_hi` list after the three guidance steps. -/
def baseRecsHi (p : CropProfile) (s : SoilReading) : List String :=
  (moistureGuidance p s).recsHi ++ (nitrogenGuidance p s).recsHi ++ (potassiumGuidance p s).recsHi

/-- The `reasoning_parts` list after the four threshold steps. -/
def baseReasons (p : CropProfile) (s : SoilReading) : List String :=
  (moistureGuidance p s).reasons ++ (nitrogenGuidance p s).reasons
    ++ (potassiumGuidance p s).reasons ++ phReasons p s

/-- Final `rec` after the all-healthy fallback (lines 261-263). -/
def finalRecs (p : CropProfile) (s : SoilReading) : List String :=
  if baseRecs p s = [] then ["Soil healthy, maintain regular care"] else baseRecs p s

/-- Final `rec_hi` after the all-healthy fallback. -/
def finalRecsHi (p : CropProfile) (s : SoilReading) : List String :=
  if baseRecs p s = [] then ["मिट्टी अच्छी है, नियमित देखभाल करें"] else baseRecsHi p s

/-- Final `reasoning_parts` (line 264 appends the all-optimal fragment). -/
def finalReasons (p : CropProfile) (s : SoilReading) : List String :=
  if baseRecs p s = [] then baseReasons p s ++ ["All soil parameters within optimal ranges"]
  else baseReasons p s

/-- The body of `rule_engine` (lines 221-276) for an already-resolved
profile; the spec calls this `evaluate(reading, profile)`. -/
def evaluate (p : CropProfile) (s : SoilReading) : AIDecision :=
  { action := if (finalRecs p s).length > 1 then "ATTENTION_NEEDED" else "ALL_GOOD"
    priority := if (finalRecs p s).length > 1 then "HIGH" else "LOW"
    confidence := 0.80
    reasoning := if finalReasons p s = [] then "Soil analysis complete"
                 else String.intercalate "; " (finalReasons p s)
    recommendations := finalRecs p s
    recommendations_hindi := finalRecsHi p s
    next_check_hours := if (finalRecs p s).length > 1 then 6 else 12 }

/-- `rule_engine` (lines 221-276): resolves the profile itself (line 226). -/
def rule_engine (s : SoilReading) : AIDecision :=
  evaluate (get_crop_profile s.crop_type) s

/-- The Markdown fence stripping of line 333. -/
def stripFences (t : String) : String :=
  (t.replace "```json" "").replace "```" ""

/-- `analyze_soil` (lines 283-339).  `remote` is the value returned by
`call_gemini` (an external network effect); `parse` models the stdlib JSON
decoding `json.loads` + `AIDecision(**data)` of lines 334-335, which fails
(raises, hence `none`) on malformed JSON or a wrong field set.  Python's
`if ai:` is false for both `None` and the empty string. -/
def analyze_soil (parse : String → Option AIDecision) (remote : Option String)
    (soil : SoilReading) : AIDecision :=
  if is_valid_crop soil.crop_type then
    match remote with
    | some ai =>
      if ai = "" then rule_engine soil
      else
        match parse (stripFences ai) with
        | some d => d
        | none => rule_engine soil
    | none => rule_engine soil
  else
    { action := "INVALID_CROP"
      priority := "LOW"
      confidence := 0
      reasoning := "Crop '" ++ soil.crop_type ++ "' is not recognized."
      recommendations :=
        if suggest_crops soil.crop_type 20 = [] then ["Enter the valid crop name"]
        else "Enter a valid crop name. Suggestions:" :: suggest_crops soil.crop_type 20
      recommendations_hindi := []
      next_check_hours := 0 }

/-- Modelled from the spec (§4.2): `suggest` returns the valid crop names
whose normalized (trimmed, lower-cased) form starts with the normalized
prefix, sorted lexicographically ascending, truncated to `limit`; empty for
blank input.  Used only to compare against the source's `suggest_crops`. -/
def suggestSpecModel (pre : String) (limit : Nat) : List String :=
  if normalizeName pre = "" then []
  else ((sortedValidCrops.filter
          (fun c => strStartsWith (normalizeName c) (normalizeName pre))).take limit)

/-! ## Helper lemmas -/

lemma moistureGuidance_len (p : CropProfile) (s : SoilReading) :
    (moistureGuidance p s).recs.length = (moistureGuidance p s).recsHi.length := by
  unfold moistureGuidance; split_ifs <;> rfl

lemma nitrogenGuidance_len (p : CropProfile) (s : SoilReading) :
    (nitrogenGuidance p s).recs.length = (nitrogenGuidance p s).recsHi.length := by
  unfold nitrogenGuidance; split_ifs <;> rfl

lemma potassiumGuidance_len (p : CropProfile) (s : SoilReading) :
    (potassiumGuidance p s).recs.length = (potassiumGuidance p s).recsHi.length := by
  unfold potassiumGuidance
  cases p.potassium_min with
  | none => rfl
  | some kmin =>
    dsimp only
    split_ifs <;> rfl

lemma baseRecs_len (p : CropProfile) (s : SoilReading) :
    (baseRecs p s).length = (baseRecsHi p s).length := by
  simp only [baseRecs, baseRecsHi, List.length_append]
  rw [moistureGuidance_len, nitrogenGuidance_len, potassiumGuidance_len]

/-- Every resolvable profile is one of the three built-in profiles. -/
lemma profile_cases (name : String) :
    get_crop_profile name = cornProfile ∨ get_crop_profile name = sugarcaneProfile ∨
      get_crop_profile name = defaultProfile := by
  unfold get_crop_profile
  split_ifs with h
  · exact Or.inr (Or.inr rfl)
  · by_cases h1 : normalizeName name = "corn"
    · left; simp [CROP_PROFILES, List.lookup, h1]
    · by_cases h2 : normalizeName name = "sugarcane"
      · right; left; simp [CROP_PROFILES, List.lookup, h1, h2]
      · by_cases h3 : normalizeName name = "_default"
        · right; right; simp [CROP_PROFILES, List.lookup, h1, h2, h3]
        · have e1 : (normalizeName name == "corn") = false := beq_eq_false_iff_ne.mpr h1
          have e2 : (normalizeName name == "sugarcane") = false := beq_eq_false_iff_ne.mpr h2
          have e3 : (normalizeName name == "_default") = false := beq_eq_false_iff_ne.mpr h3
          right; right; simp [CROP_PROFILES, List.lookup, e1, e2, e3]

/-- Moisture exactly at the profile minimum emits nothing, provided the
minimum is at least the 20% hard floor (true of all three profiles). -/
lemma moistureGuidance_at_min (p : CropProfile) (s : SoilReading) (m : ℚ)
    (hm : p.moisture_min = some m) (h20 : 20 ≤ m) (h : s.moisture = m) :
    moistureGuidance p s = ⟨[], [], []⟩ := by
  have hc : ¬ (s.moisture < max 20 (p.moisture_min.getD 35 - 15)) := by
    rw [h, hm, Option.getD_some, not_lt]
    exact max_le h20 (by linarith)
  have hm2 : ¬ (s.moisture < p.moisture_min.getD 35) := by
    rw [h, hm, Option.getD_some]; exact lt_irrefl m
  unfold moistureGuidance
  rw [if_neg hc, if_neg hm2]

/-- Moisture one unit below the minimum, but not under the critical cutoff,
emits exactly the moderate "Irrigate soon" guidance. -/
lemma moistureGuidance_one_below (p : CropProfile) (s : SoilReading) (m : ℚ)
    (hm : p.moisture_min = some m) (h : s.moisture = m - 1)
    (hcrit : ¬ (s.moisture < max 20 (p.moisture_min.getD 35 - 15))) :
    moistureGuidance p s =
      ⟨["Irrigate soon"], ["जल्द सिंचाई करें"],
       ["Moisture is " ++ toString s.moisture ++ "%, below crop optimal of "
        ++ toString (p.moisture_min.getD 35) ++ "%"]⟩ := by
  have hlt : s.moisture < p.moisture_min.getD 35 := by
    rw [h, hm, Option.getD_some]; linarith
  unfold moistureGuidance
  rw [if_neg hcrit, if_pos hlt]

/-- The sorted crop list has strictly ascending character data (used to
transfer to `String` lexicographic order). -/
lemma sortedValidCrops_data_sorted :
    List.Pairwise (fun a b : String => a.data < b.data) sortedValidCrops := by decide

/-- Every built-in crop name is already trimmed. -/
lemma sortedValidCrops_trim_fixed : ∀ c ∈ sortedValidCrops, strTrim c = c := by decide

/-- A reading that is healthy under the default profile (all thresholds met). -/
def healthyReading : SoilReading :=
  { moisture := 50, nitrogen := 300, phosphorus := 50, potassium := 200, ph := 7,
    temperature := 25, electrical_conductivity := 1, organic_carbon := 1,
    location := "Delhi", crop_type := "wheat", timestamp := none }

/-- The reading of the spec's end-to-end example: moisture 25, nitrogen 200,
potassium 180, pH 7.0, crop "wheat". -/
def exampleReading : SoilReading :=
  { moisture := 25, nitrogen := 200, phosphorus := 50, potassium := 180, ph := 7,
    temperature := 25, electrical_conductivity := 1, organic_carbon := 1,
    location := "Delhi", crop_type := "wheat", timestamp := none }

lemma healthyReading_base : baseRecs (get_crop_profile healthyReading.crop_type) healthyReading = [] := by
  have hp : get_crop_profile healthyReading.crop_type = defaultProfile := rfl
  rw [hp]
  unfold baseRecs moistureGuidance nitrogenGuidance potassiumGuidance
  norm_num [defaultProfile, healthyReading]

lemma healthyReading_len : (rule_engine healthyReading).recommendations.length = 1 := by
  have h : (rule_engine healthyReading).recommendations
      = finalRecs (get_crop_profile healthyReading.crop_type) healthyReading := rfl
  rw [h]
  unfold finalRecs
  rw [if_pos healthyReading_base]
  rfl

lemma exampleReading_final :
    finalRecs (get_crop_profile exampleReading.crop_type) exampleReading
      = ["Irrigate soon", "Apply 50kg urea per acre"] := by
  have hp : get_crop_profile exampleReading.crop_type = defaultProfile := rfl
  rw [finalRecs, hp]
  unfold baseRecs moistureGuidance nitrogenGuidance potassiumGuidance
  norm_num [defaultProfile, exampleReading]
  exact List.cons_ne_nil _ _

/-! ## Claims -/

/-- C1: for every rule-engine evaluation, a recommendation list of length
exactly 1 yields action "ALL_GOOD", priority "LOW" and next_check_hours 12;
length 2 or more yields "ATTENTION_NEEDED", "HIGH" and 6; confidence is
always 0.80. -/
theorem claim_C1_count_mapping (s : SoilReading) :
    (rule_engine s).confidence = 0.80 ∧
    ((rule_engine s).recommendations.length = 1 →
      (rule_engine s).action = "ALL_GOOD" ∧ (rule_engine s).priority = "LOW" ∧
      (rule_engine s).next_check_hours = 12) ∧
    (2 ≤ (rule_engine s).recommendations.length →
      (rule_engine s).action = "ATTENTION_NEEDED" ∧ (rule_engine s).priority = "HIGH" ∧
      (rule_engine s).next_check_hours = 6) := by
  refine ⟨rfl, ?_, ?_⟩ <;> intro h
  · simp only [rule_engine, evaluate] at h ⊢
    rw [h]
    norm_num
  · simp only [rule_engine, evaluate] at h ⊢
    have h1 : (finalRecs (get_crop_profile s.crop_type) s).length > 1 := h
    rw [if_pos h1, if_pos h1, if_pos h1]
    exact ⟨rfl, rfl, rfl⟩

/-- C1 witness: the all-healthy reading produces exactly one recommendation,
and the theorem then gives ALL_GOOD / LOW / 12. -/
theorem claim_C1_count_mapping_witness :
    (rule_engine healthyReading).recommendations.length = 1 ∧
    (rule_engine healthyReading).action = "ALL_GOOD" ∧
    (rule_engine healthyReading).priority = "LOW" ∧
    (rule_engine healthyReading).next_check_hours = 12 :=
  ⟨healthyReading_len,
   ((claim_C1_count_mapping healthyReading).2.1 healthyReading_len).1,
   ((claim_C1_count_mapping healthyReading).2.1 healthyReading_len).2.1,
   ((claim_C1_count_mapping healthyReading).2.1 healthyReading_len).2.2⟩

/-- C8: the rule engine is deterministic and independent of the reading's
timestamp: two readings identical in every field except `timestamp` produce
identical decisions (the modelled decision record carries no timestamp). -/
theorem claim_C8_determinism (s₁ s₂ : SoilReading)
    (h1 : s₁.moisture = s₂.moisture) (h2 : s₁.nitrogen = s₂.nitrogen)
    (h3 : s₁.phosphorus = s₂.phosphorus) (h4 : s₁.potassium = s₂.potassium)
    (h5 : s₁.ph = s₂.ph) (h6 : s₁.temperature = s₂.temperature)
    (h7 : s₁.electrical_conductivity = s₂.electrical_conductivity)
    (h8 : s₁.organic_carbon = s₂.organic_carbon)
    (h9 : s₁.location = s₂.location) (h10 : s₁.crop_type = s₂.crop_type) :
    rule_engine s₁ = rule_engine s₂ := by
  cases s₁
  cases s₂
  dsimp only at h1 h2 h3 h4 h5 h6 h7 h8 h9 h10
  subst h1 h2 h3 h4 h5 h6 h7 h8 h9 h10
  rfl

/-- C8 witness: identical readings with different timestamps evaluate to the
same decision. -/
theorem claim_C8_determinism_witness :
    rule_engine ⟨25, 200, 50, 180, 7, 25, 1, 1, "Delhi", "wheat", some "2024-01-01"⟩
      = rule_engine ⟨25, 200, 50, 180, 7, 25, 1, 1, "Delhi", "wheat", some "2024-06-30"⟩ :=
  claim_C8_determinism _ _ rfl rfl rfl rfl rfl rfl rfl rfl rfl rfl

/-- C9: every rule-engine decision has a non-empty recommendation list, and
the English and Hindi recommendation lists always have the same length. -/
theorem claim_C9_rec_lists (s : SoilReading) :
    1 ≤ (rule_engine s).recommendations.length ∧
    (rule_engine s).recommendations.length = (rule_engine s).recommendations_hindi.length := by
  have hrec : (rule_engine s).recommendations
      = finalRecs (get_crop_profile s.crop_type) s := rfl
  have hhi : (rule_engine s).recommendations_hindi
      = finalRecsHi (get_crop_profile s.crop_type) s := rfl
  rw [hrec, hhi]
  unfold finalRecs finalRecsHi
  split_ifs with h
  · exact ⟨le_refl 1, rfl⟩
  · constructor
    · have hp : 0 < (baseRecs (get_crop_profile s.crop_type) s).length :=
        List.length_pos.mpr h
      omega
    · exact baseRecs_len _ _

/-- C5: for every resolvable profile, moisture exactly at the profile's
minimum emits no moisture recommendation, and moisture one unit below the
minimum (when not under the critical cutoff max(20, min-15)) emits exactly
"Irrigate soon" rather than "Irrigate immediately". -/
theorem claim_C5_moisture_boundary (name : String) (s : SoilReading) :
    (s.moisture = (get_crop_profile name).moisture_min.getD 35 →
      moistureGuidance (get_crop_profile name) s = ⟨[], [], []⟩) ∧
    (s.moisture = (get_crop_profile name).moisture_min.getD 35 - 1 →
      ¬ (s.moisture < max 20 ((get_crop_profile name).moisture_min.getD 35 - 15)) →
      moistureGuidance (get_crop_profile name) s =
        ⟨["Irrigate soon"], ["जल्द सिंचाई करें"],
         ["Moisture is " ++ toString s.moisture ++ "%, below crop optimal of "
          ++ toString ((get_crop_profile name).moisture_min.getD 35) ++ "%"]⟩) := by
  obtain hp | hp | hp := profile_cases name <;> rw [hp]
  · exact ⟨fun h => moistureGuidance_at_min _ _ 40 rfl (by norm_num) h,
           fun h hcrit => moistureGuidance_one_below _ _ 40 rfl h hcrit⟩
  · exact ⟨fun h => moistureGuidance_at_min _ _ 45 rfl (by norm_num) h,
           fun h hcrit => moistureGuidance_one_below _ _ 45 rfl h hcrit⟩
  · exact ⟨fun h => moistureGuidance_at_min _ _ 35 rfl (by norm_num) h,
           fun h hcrit => moistureGuidance_one_below _ _ 35 rfl h hcrit⟩

/-- C5 witness: under the default ("wheat") profile, moisture 35 emits no
moisture guidance and moisture 34 emits exactly "Irrigate soon". -/
theorem claim_C5_moisture_boundary_witness :
    moistureGuidance (get_crop_profile "wheat")
        ⟨35, 300, 50, 200, 7, 25, 1, 1, "Delhi", "wheat", none⟩ = ⟨[], [], []⟩ ∧
    moistureGuidance (get_crop_profile "wheat")
        ⟨34, 300, 50, 200, 7, 25, 1, 1, "Delhi", "wheat", none⟩ =
      ⟨["Irrigate soon"], ["जल्द सिंचाई करें"],
       ["Moisture is " ++ toString (34 : ℚ) ++ "%, below crop optimal of "
        ++ toString ((get_crop_profile "wheat").moisture_min.getD 35) ++ "%"]⟩ :=
  have hw : get_crop_profile "wheat" = defaultProfile := rfl
  ⟨(claim_C5_moisture_boundary "wheat" _).1 (by rw [hw]; norm_num [defaultProfile]),
   (claim_C5_moisture_boundary "wheat" _).2 (by rw [hw]; norm_num [defaultProfile])
     (by rw [hw]; norm_num [defaultProfile])⟩

/-- C6: crop-profile resolution is total: empty input resolves to the default
profile, an unknown normalized name resolves to the default profile, and a
name with an explicit registry entry resolves to that entry. -/
theorem claim_C6_resolution_total (name : String) :
    (name = "" → get_crop_profile name = defaultProfile) ∧
    (CROP_PROFILES.lookup (normalizeName name) = none →
      get_crop_profile name = defaultProfile) ∧
    (∀ p, name ≠ "" → CROP_PROFILES.lookup (normalizeName name) = some p →
      get_crop_profile name = p) := by
  refine ⟨?_, ?_, ?_⟩
  · intro h
    unfold get_crop_profile
    rw [if_pos h]
  · intro h
    unfold get_crop_profile
    split_ifs with h0
    · rfl
    · rw [h]; rfl
  · intro p hne hl
    unfold get_crop_profile
    rw [if_neg hne, hl]
    rfl

/-- C6 witness: "corn" has an explicit entry and resolves to it. -/
theorem claim_C6_resolution_total_witness :
    ("corn" : String) ≠ "" ∧ CROP_PROFILES.lookup (normalizeName "corn") = some cornProfile ∧
    get_crop_profile "corn" = cornProfile :=
  ⟨by decide, rfl, (claim_C6_resolution_total "corn").2.2 cornProfile (by decide) rfl⟩

/-- A reading whose crop name matches nothing in the registry. -/
def zzzReading : SoilReading :=
  { moisture := 25, nitrogen := 200, phosphorus := 50, potassium := 180, ph := 7,
    temperature := 25, electrical_conductivity := 1, organic_carbon := 1,
    location := "Delhi", crop_type := "zzz", timestamp := none }

/-- C3: an unrecognized crop with no prefix suggestions yields the
INVALID_CROP decision with priority LOW, confidence 0 and the single generic
recommendation, for every remote reply and every parser — i.e. without
consulting the rule engine or the remote client. -/
theorem claim_C3_invalid_crop (parse : String → Option AIDecision) (remote : Option String)
    (s : SoilReading) (hmem : normalizeName s.crop_type ∉ VALID_CROPS)
    (hsug : suggest_crops s.crop_type 20 = []) :
    (analyze_soil parse remote s).action = "INVALID_CROP" ∧
    (analyze_soil parse remote s).priority = "LOW" ∧
    (analyze_soil parse remote s).confidence = 0 ∧
    (analyze_soil parse remote s).recommendations = ["Enter the valid crop name"] := by
  have hv : is_valid_crop s.crop_type = false := by
    unfold is_valid_crop
    split_ifs with h0
    · rfl
    · cases hc : VALID_CROPS.contains (normalizeName s.crop_type) with
      | false => rfl
      | true => exact absurd (List.elem_iff.mp hc) hmem
  unfold analyze_soil
  rw [hv, hsug]
  simp

/-- C3 witness: crop "zzz" is unknown, has no suggestions, and is rejected. -/
theorem claim_C3_invalid_crop_witness :
    normalizeName zzzReading.crop_type ∉ VALID_CROPS ∧
    suggest_crops zzzReading.crop_type 20 = [] ∧
    (analyze_soil (fun _ => none) none zzzReading).action = "INVALID_CROP" ∧
    (analyze_soil (fun _ => none) none zzzReading).recommendations
      = ["Enter the valid crop name"] :=
  ⟨by decide, by decide,
   (claim_C3_invalid_crop (fun _ => none) none zzzReading (by decide) (by decide)).1,
   (claim_C3_invalid_crop (fun _ => none) none zzzReading (by decide) (by decide)).2.2.2⟩

/-- C4: for a recognized crop, whenever the remote call yields no text (or an
empty text) or its parse fails, `analyze_soil` returns exactly the rule
engine's output, and (being a total function) no exception propagates. -/
theorem claim_C4_fallback (parse : String → Option AIDecision) (remote : Option String)
    (s : SoilReading) (hv : is_valid_crop s.crop_type = true)
    (hfail : remote = none ∨ ∃ t, remote = some t ∧ (t = "" ∨ parse (stripFences t) = none)) :
    analyze_soil parse remote s = rule_engine s := by
  unfold analyze_soil
  rw [hv]
  obtain rfl | ⟨t, rfl, ht⟩ := hfail
  · simp
  · obtain rfl | hp := ht
    · simp
    · by_cases h0 : t = ""
      · simp [h0]
      · simp [h0, hp]

/-- C4 witness: with the "wheat" reading and a remote reply that fails to
parse, the result is the rule engine's output. -/
theorem claim_C4_fallback_witness :
    is_valid_crop exampleReading.crop_type = true ∧
    analyze_soil (fun _ => none) (some "not json") exampleReading
      = rule_engine exampleReading :=
  ⟨by decide,
   claim_C4_fallback (fun _ => none) (some "not json") exampleReading (by decide)
     (Or.inr ⟨"not json", rfl, Or.inr rfl⟩)⟩

/-- C10: every INVALID_CROP rejection carries an empty Hindi recommendation
list, next_check_hours 0, and a reasoning string containing the rejected
crop name. -/
theorem claim_C10_invalid_fields (parse : String → Option AIDecision) (remote : Option String)
    (s : SoilReading) (hv : is_valid_crop s.crop_type = false) :
    (analyze_soil parse remote s).recommendations_hindi = [] ∧
    (analyze_soil parse remote s).next_check_hours = 0 ∧
    ∃ a b, (analyze_soil parse remote s).reasoning = a ++ s.crop_type ++ b := by
  unfold analyze_soil
  rw [hv, if_neg Bool.false_ne_true]
  exact ⟨rfl, rfl, "Crop '", "' is not recognized.", rfl⟩

/-- C10 witness: the "zzz" rejection has empty Hindi list, zero next-check
hours, and names the crop in its reasoning. -/
theorem claim_C10_invalid_fields_witness :
    is_valid_crop zzzReading.crop_type = false ∧
    (analyze_soil (fun _ => none) none zzzReading).recommendations_hindi = [] ∧
    (analyze_soil (fun _ => none) none zzzReading).next_check_hours = 0 ∧
    ∃ a b, (analyze_soil (fun _ => none) none zzzReading).reasoning
      = a ++ zzzReading.crop_type ++ b :=
  ⟨by decide,
   (claim_C10_invalid_fields (fun _ => none) none zzzReading (by decide)).1,
   (claim_C10_invalid_fields (fun _ => none) none zzzReading (by decide)).2.1,
   (claim_C10_invalid_fields (fun _ => none) none zzzReading (by decide)).2.2⟩

lemma exampleReading_fallback :
    analyze_soil (fun _ => none) none exampleReading = rule_engine exampleReading := by
  have hv : is_valid_crop exampleReading.crop_type = true := by decide
  unfold analyze_soil
  rw [hv]
  simp

lemma exampleReading_recs :
    (rule_engine exampleReading).recommendations
      = ["Irrigate soon", "Apply 50kg urea per acre"] :=
  exampleReading_final

/-- C2 counterexample: on the spec's end-to-end example (moisture 25 against
the default minimum 35), the code's critical cutoff is max(20, 35-15) = 20,
and 25 is not below it, so the first recommendation is "Irrigate soon", not
"Irrigate immediately" as the claim states. -/
theorem claim_C2_counterexample :
    ((analyze_soil (fun _ => none) none exampleReading).recommendations
      = ["Irrigate immediately", "Apply 50kg urea per acre"]) = False := by
  rw [exampleReading_fallback, exampleReading_recs]
  simp

/-- C2 amended: the example reading yields recommendations
["Irrigate soon", nitrogen recommendation], action ATTENTION_NEEDED,
priority HIGH, next_check_hours 6. -/
theorem claim_C2_amended_example :
    (analyze_soil (fun _ => none) none exampleReading).recommendations
        = ["Irrigate soon", "Apply 50kg urea per acre"] ∧
    (analyze_soil (fun _ => none) none exampleReading).action = "ATTENTION_NEEDED" ∧
    (analyze_soil (fun _ => none) none exampleReading).priority = "HIGH" ∧
    (analyze_soil (fun _ => none) none exampleReading).next_check_hours = 6 := by
  rw [exampleReading_fallback]
  have hl : (finalRecs (get_crop_profile exampleReading.crop_type) exampleReading).length > 1 := by
    rw [exampleReading_final]
    norm_num
  refine ⟨exampleReading_recs, ?_, ?_, ?_⟩ <;>
    · simp only [rule_engine, evaluate]
      rw [if_pos hl]

/-- C7: `suggest_crops` agrees with the spec's description
(`suggestSpecModel`): it returns exactly the valid crop names whose
normalized form starts with the normalized prefix, in ascending
lexicographic order (the candidate list is sorted and a permutation of the
registry), truncated to at most `limit` entries, and a blank or empty prefix
yields the empty list. -/
theorem claim_C7_suggest :
    (∀ pre limit, suggest_crops pre limit = suggestSpecModel pre limit) ∧
    List.Sorted (· < ·) sortedValidCrops ∧
    sortedValidCrops.Perm VALID_CROPS ∧
    (∀ pre limit, (suggest_crops pre limit).length ≤ limit) ∧
    (∀ pre limit, strLower (strTrim pre) = "" → suggest_crops pre limit = []) := by
  refine ⟨?_, ?_, by decide, ?_, ?_⟩
  · intro pre limit
    simp only [suggest_crops, suggestSpecModel, normalizeName]
    split_ifs with h
    · rfl
    · congr 1
  · exact sortedValidCrops_data_sorted.imp (fun h => String.lt_iff_toList_lt.mpr h)
  · intro pre limit
    simp only [suggest_crops]
    split_ifs
    · exact Nat.zero_le _
    · rw [List.length_take]
      exact min_le_left _ _
  · intro pre limit h
    simp only [suggest_crops]
    rw [if_pos h]

/-- C7 witness: a blank prefix yields nothing, and concrete calls agree with
the spec model and respect the limit. -/
theorem claim_C7_suggest_witness :
    strLower (strTrim "  ") = "" ∧ suggest_crops "  " 5 = [] ∧
    suggest_crops "WH " 20 = suggestSpecModel "WH " 20 ∧
    (suggest_crops "wh" 20).length ≤ 20 :=
  ⟨by decide, claim_C7_suggest.2.2.2.2 "  " 5 (by decide),
   claim_C7_suggest.1 "WH " 20, claim_C7_suggest.2.2.2.1 "wh" 20⟩
